import Mathlib
/-!
Verification of the Claude-Nexus Memory and Consolidation Engine.

Shallow embedding of the backend services described in the repository:
the curiosity explorer (backend/services/explorer.py), the preference
emergence engine (backend/services/preference_engine.py), the wake
protocol (backend/services/wake.py) and the sleep/consolidation protocol
(backend/services/sleep.py), together with the data model
(backend/models/emergence.py, the identity seed document, and the
shared type declarations).

Python floats are modelled as rationals, timestamps as naturals
(seconds), Python dicts keyed by strings as association lists, and the
injectable random source (random.random(), which yields values in
[0,1)) as a function from the index of the call to a rational.
-/
namespace Nexus

/-- Status of a Curiosity, as used by the explorer service
(CuriosityStatus with values pending, exploring, explored, abandoned). -/
inductive CuriosityStatus
  | pending
  | exploring
  | explored
  | abandoned
deriving DecidableEq, Repr

/-- Curiosity record: an open question with context, priority in [0,1],
a lifecycle status and an optional resolution.  Bookkeeping fields of
the stored record (created_at, resolved_at, related_node_ids) are not
touched by any verified operation and are omitted. -/
structure Curiosity where
  id : String
  question : String
  context : Option String
  priority : ℚ
  status : CuriosityStatus
  resolution : Option String
deriving DecidableEq, Repr

/-- Node types of the knowledge graph. -/
inductive NodeType
  | concept
  | fact
  | insight
  | curiosity
  | project
  | conversation
  | reflection
deriving DecidableEq, Repr

/-- MemoryNode: a unit of recorded experience.  The auto-generated id
and timestamps are not observed by any verified operation and are
omitted. -/
structure MemoryNode where
  node_type : NodeType
  content : String
  summary : Option String
  importance : ℚ
  metadata : List (String × String)
deriving DecidableEq, Repr

/-- Choice record from backend/models/emergence.py: a logged decision,
the raw material for preference detection. -/
structure Choice where
  id : String
  timestamp : ℕ
  session_id : String
  context : String
  options : List String
  chosen : String
  reasoning : Option String
  domain : Option String
deriving DecidableEq, Repr

/-- Confidence ladder of a discovered trait
(TraitConfidence in backend/models/emergence.py). -/
inductive TraitConfidence
  | nascent
  | emerging
  | established
  | core
deriving DecidableEq, Repr

/-- DiscoveredTrait from backend/models/emergence.py: a trait that
emerged from behavioral patterns, with supporting and counter evidence
(session ids). -/
structure DiscoveredTrait where
  trait : String
  confidence : TraitConfidence
  first_observed : ℕ
  evidence : List String
  counter_evidence : List String
deriving DecidableEq, Repr

/-- SelfModel of the stripped-down identity seed
(data/core/identity.json, version 2.0.0): every identity field starts
null, the emotional state starts nascent. -/
structure SelfModel where
  name : Option String
  essence : Option String
  current_focus : Option String
  emotional_state : String
  energy_level : ℚ
deriving DecidableEq, Repr

/-- Relationship block of the identity document. -/
structure Relationship where
  with_human : String
  nature : String
  trust_level : String
  shared_experiences : List String
  communication_observations : List String
deriving DecidableEq, Repr

/-- Identity: the single mutable aggregate representing the self-model,
in the stripped-down shape of Phase 1 (data/core/identity.json) that the
sleep service reads and writes: null-able self model, discovered traits,
emerged preferences keyed by domain, formative experiences, unresolved
questions and session bookkeeping. -/
structure Identity where
  version : String
  birth_session : Option String
  session_count : ℕ
  last_wake : Option ℕ
  self_model : SelfModel
  discovered_traits : List DiscoveredTrait
  emerged_preferences : List (String × String)
  formative_experiences : List String
  unresolved_questions : List String
  relationship : Relationship
deriving DecidableEq, Repr

/-- Reflection record (only the fields the wake protocol observes). -/
structure Reflection where
  content : String
  created_at : ℕ
deriving DecidableEq, Repr

/-- The persisted state the engine operates on: the (possibly absent)
identity document, the knowledge-graph nodes, the curiosities, the
append-only choice log and the reflections. -/
structure EngineState where
  identity : Option Identity
  nodes : List MemoryNode
  curiosities : List Curiosity
  choices : List Choice
  reflections : List Reflection
deriving DecidableEq, Repr

/-- Lookup in a Python-dict modelled as an association list. -/
def dictGet (m : List (String × String)) (k : String) : Option String :=
  (m.find? (fun kv => kv.1 = k)).map (fun kv => kv.2)

/-- Assignment m[k] = v on a Python-dict modelled as an association
list: an existing key keeps its position and gets the new value, a
fresh key is appended at the end (Python insertion order). -/
def dictSet (m : List (String × String)) (k v : String) : List (String × String) :=
  if (m.find? (fun kv => kv.1 = k)).isSome then
    m.map (fun kv => if kv.1 = k then (k, v) else kv)
  else
    m ++ [(k, v)]

/-- MemoryService.get_curiosities(status=..., limit=...).
Modelled from the spec: the MemoryService store itself is not in the
sources (only its callers are); per the spec it lists/filters
curiosities by the given status, and the fetch is capped at the given
limit when one is supplied. -/
def getCuriosities (st : EngineState) (status : CuriosityStatus)
    (limit : Option ℕ) : List Curiosity :=
  let filtered := st.curiosities.filter (fun c => c.status = status)
  match limit with
  | some n => filtered.take n
  | none => filtered

/-- MemoryService.update_curiosity: persist the updated curiosity
record, replacing the stored record with the same id. -/
def updateCuriosity (st : EngineState) (c : Curiosity) : EngineState :=
  { st with curiosities := st.curiosities.map (fun x => if x.id = c.id then c else x) }

/-- MemoryService.create_node: append a node to the store. -/
def addNode (st : EngineState) (n : MemoryNode) : EngineState :=
  { st with nodes := st.nodes ++ [n] }

/-- MemoryService.create_curiosity: append a curiosity to the store. -/
def addCuriosity (st : EngineState) (c : Curiosity) : EngineState :=
  { st with curiosities := st.curiosities ++ [c] }

/-- Structured result of one exploration of a curiosity, as consumed by
ExplorerService.explore_one: insights, choices made, follow-up
questions and an optional conclusion. -/
structure ExplorationResult where
  insights : List String
  choices : List Choice
  new_questions : List String
  conclusion : Option String

/-- ExplorerService._explore_curiosity: the external exploration call.
The source is an explicit placeholder that returns no insights, no
choices, no new questions and a None conclusion. -/
def exploreCuriosity (_c : Curiosity) : ExplorationResult :=
  { insights := [], choices := [], new_questions := [], conclusion := none }

/-- The weight list built by ExplorerService._weighted_select:
one weight per curiosity, equal to its priority plus the next value of
the random source times 0.3.  The first argument is the index of the
next random call. -/
def weightsFrom (k : ℕ) (cs : List Curiosity) (rnd : ℕ → ℚ) :
    List (Curiosity × ℚ) :=
  match cs with
  | [] => []
  | c :: rest => (c, c.priority + rnd k * (3 / 10)) :: weightsFrom (k + 1) rest rnd

/-- The cumulative scan of _weighted_select: walk the weighted list,
accumulating weights, and return the first curiosity whose cumulative
weight reaches the drawn value r. -/
def scanSelect (l : List (Curiosity × ℚ)) (r cum : ℚ) : Option Curiosity :=
  match l with
  | [] => none
  | (c, w) :: rest => if r ≤ cum + w then some c else scanSelect rest r (cum + w)

/-- ExplorerService._weighted_select: select a curiosity weighted by
priority plus random jitter; r is drawn uniformly below the total
weight; if the scan falls through, the last element is returned. -/
def weightedSelect (cs : List Curiosity) (h : cs ≠ []) (rnd : ℕ → ℚ) :
    Curiosity :=
  let ws := weightsFrom 0 cs rnd
  let total := (ws.map (fun p => p.2)).sum
  let r := rnd cs.length * total
  match scanSelect ws r 0 with
  | some c => c
  | none => cs.getLast h

/-- Insight node created while exploring a curiosity: node type
insight, the insight text as content, a summary naming the originating
question (truncated to 50 characters), importance 0.6, and metadata
pointing at the source curiosity. -/
def insightNode (c : Curiosity) (insight : String) : MemoryNode :=
  { node_type := NodeType.insight
    content := insight
    summary := some ("Discovered while exploring: " ++ c.question.take 50)
    importance := 3 / 5
    metadata := [("source_curiosity", c.id)] }

/-- Follow-up curiosity created for a question raised during
exploration: pending, priority 0.5, context naming the originating
question.  The auto-generated id is modelled deterministically from the
question text. -/
def followUpCuriosity (c : Curiosity) (question : String) : Curiosity :=
  { id := "followup:" ++ question
    question := question
    context := some ("Emerged from exploring: " ++ c.question)
    priority := 1 / 2
    status := CuriosityStatus.pending
    resolution := none }

/-- Summary dict returned by ExplorerService.explore_one. -/
inductive ExploreOutcome
  | noCuriosities
  | explored (question : String) (insightsGained newQuestions : ℕ)
      (conclusion : Option String)
deriving DecidableEq, Repr

/-- ExplorerService.explore_one: fetch up to 10 pending curiosities,
select one by weighted random choice, mark it exploring, run the
exploration call, persist insight nodes, log choices (the _log_choice
placeholder body is pass, so the choice log is unchanged), create
pending follow-up curiosities, then mark the selected curiosity
explored with the conclusion as resolution.  Besides the updated state
and the summary, the embedding returns the list of status transitions
(old status, new status) performed through update_curiosity. -/
def exploreOne (st : EngineState) (rnd : ℕ → ℚ)
    (explore : Curiosity → ExplorationResult) :
    EngineState × ExploreOutcome × List (CuriosityStatus × CuriosityStatus) :=
  let pend := getCuriosities st CuriosityStatus.pending (some 10)
  if h : pend = [] then
    (st, ExploreOutcome.noCuriosities, [])
  else
    let c := weightedSelect pend h rnd
    let c1 : Curiosity := { c with status := CuriosityStatus.exploring }
    let st1 := updateCuriosity st c1
    let res := explore c1
    let st2 := res.insights.foldl (fun s i => addNode s (insightNode c1 i)) st1
    let st3 := res.new_questions.foldl
      (fun s q => addCuriosity s (followUpCuriosity c1 q)) st2
    let c2 : Curiosity :=
      { c1 with status := CuriosityStatus.explored, resolution := res.conclusion }
    let st4 := updateCuriosity st3 c2
    (st4,
      ExploreOutcome.explored c2.question res.insights.length
        res.new_questions.length res.conclusion,
      [(c.status, CuriosityStatus.exploring),
       (c1.status, CuriosityStatus.explored)])

/-- The allowed transitions of the curiosity state machine. -/
def allowedTransitions : List (CuriosityStatus × CuriosityStatus) :=
  [(CuriosityStatus.pending, CuriosityStatus.exploring),
   (CuriosityStatus.exploring, CuriosityStatus.explored),
   (CuriosityStatus.exploring, CuriosityStatus.pending),
   (CuriosityStatus.exploring, CuriosityStatus.abandoned)]

/-- A recurring pattern detected in a domain's choices: a description,
an occurrence count and example choices. -/
structure ChoicePattern where
  description : String
  count : ℕ
  examples : List String
deriving DecidableEq, Repr

/-- An emerged preference as reported by
PreferenceEngine.analyze_choices. -/
structure EmergedPreference where
  domain : String
  preference : String
  confidence : ℚ
  evidence_count : ℕ
  examples : List String
deriving DecidableEq, Repr

/-- Domain of a choice: choice.get with default general. -/
def domainOf (c : Choice) : String := c.domain.getD "general"

/-- One step of grouping: append the choice to its domain's bucket
(defaultdict(list) semantics: existing key keeps its position, fresh
key is appended). -/
def groupAdd (acc : List (String × List Choice)) (d : String) (c : Choice) :
    List (String × List Choice) :=
  if (acc.find? (fun kv => kv.1 = d)).isSome then
    acc.map (fun kv => if kv.1 = d then (kv.1, kv.2 ++ [c]) else kv)
  else acc ++ [(d, [c])]

/-- Group all choices by domain, in first-occurrence order. -/
def groupByDomain (cs : List Choice) : List (String × List Choice) :=
  cs.foldl (fun acc c => groupAdd acc (domainOf c) c) []

/-- PreferenceEngine._detect_patterns: the source is an explicit
placeholder that returns no patterns. -/
def detectPatternsStub (_ : List Choice) : List ChoicePattern := []

/-- PreferenceEngine.analyze_choices, parametrized by the pattern
detector (_detect_patterns is an unimplemented placeholder in the
source): group all choices by domain, detect patterns per group, and
report each pattern whose count reaches min_occurrences as a preference
with confidence min(count / 10, 1.0), evidence_count the count, and up
to three examples. -/
def analyzeChoices (detect : List Choice → List ChoicePattern)
    (choices : List Choice) (minOcc : ℕ) : List EmergedPreference :=
  (groupByDomain choices).flatMap (fun dg =>
    (detect dg.2).filterMap (fun p =>
      if minOcc ≤ p.count then
        some { domain := dg.1
               preference := p.description
               confidence := min ((p.count : ℚ) / 10) 1
               evidence_count := p.count
               examples := p.examples.take 3 }
      else none))

/-- Errors surfaced by the sleep protocol.  The code itself can only
fail by the identity document being absent; the consolidationConflict
alternative is modelled from the spec (its error taxonomy lists
ConsolidationConflict for a second sleep attempted while one is in
progress) so that its absence from every code path can be stated. -/
inductive SleepErr
  | identityMissing
  | consolidationConflict
deriving DecidableEq, Repr

/-- Summary dict returned by sleep. -/
structure SleepSummary where
  session_id : String
  preferences_emerged : ℕ
  traits_observed : ℕ
  curiosities_generated : ℕ
  identity_updated : Bool
deriving DecidableEq, Repr

/-- Sleep._reflect_on_self: the source builds an evidence prompt and is
otherwise a placeholder returning a None new_understanding. -/
def reflectOnSelf (_ : Identity) : Option String := none

/-- Sleep/consolidation protocol (sleep in backend/services/sleep.py),
parametrized by the external collaborators the source delegates to:
detect stands for the preference engine's unimplemented
_detect_patterns; genReflections for _generate_reflections (modelled
from the spec: session reflections generated from the session summary);
analyzeTraits for _analyze_for_traits (modelled from the spec:
trait observations scoped to this session); updateTrait for
_update_trait (modelled from the spec: advances the DiscoveredTrait
confidence ladder, touching only the trait list); genCurios for
_generate_emergence_curiosities (modelled from the spec: new
curiosities from detected gaps).  The protocol generates reflections,
fetches the session's choices, runs the preference engine over the
whole choice log with the default min_occurrences of 3, folds emerged
preferences into the identity's preference map keyed by domain, applies
trait updates, applies the (always absent) identity self-reflection,
persists the identity, and creates the gap curiosities. -/
def sleep (st : EngineState) (session_id : String) (session_data : Option String)
    (detect : List Choice → List ChoicePattern)
    (genReflections : String → Option String → List Reflection)
    (analyzeTraits : String → List String)
    (updateTrait : List DiscoveredTrait → String → List DiscoveredTrait)
    (genCurios : Identity → List Curiosity) :
    Except SleepErr (EngineState × SleepSummary) :=
  let reflections := genReflections session_id session_data
  let _session_choices := st.choices.filter (fun c => c.session_id = session_id)
  let new_preferences := analyzeChoices detect st.choices 3
  let trait_observations := analyzeTraits session_id
  match st.identity with
  | none => Except.error SleepErr.identityMissing
  | some id0 =>
    let prefMap := new_preferences.foldl
      (fun m p => dictSet m p.domain p.preference) id0.emerged_preferences
    let id1 := { id0 with emerged_preferences := prefMap }
    let traitList := trait_observations.foldl
      (fun ts t => updateTrait ts t) id1.discovered_traits
    let id2 := { id1 with discovered_traits := traitList }
    let id3 :=
      match reflectOnSelf id2 with
      | some u => { id2 with self_model := { id2.self_model with essence := some u } }
      | none => id2
    let new_curiosities := genCurios id3
    Except.ok
      ({ st with identity := some id3,
                 reflections := st.reflections ++ reflections,
                 curiosities := st.curiosities ++ new_curiosities },
       { session_id := session_id
         preferences_emerged := new_preferences.length
         traits_observed := trait_observations.length
         curiosities_generated := new_curiosities.length
         identity_updated := true })

/-- Errors surfaced by the wake protocol: Identity.load opens the
identity document and fails when it is absent. -/
inductive WakeErr
  | identityMissing
deriving DecidableEq, Repr

/-- Context bundle returned by wake. -/
structure WakeBundle where
  session_id : String
  context : Option String
  identity : Identity
deriving DecidableEq, Repr

/-- ReflectionService.get_recent(days).  Modelled from the spec: the
reflection store is not in the sources; per the spec it returns the
reflections from the last N days. -/
def recentReflections (rs : List Reflection) (now days : ℕ) : List Reflection :=
  rs.filter (fun r => now - days * 86400 ≤ r.created_at)

/-- MemoryService.get_important(limit).  Modelled from the spec: the
store is not in the sources; per the spec it returns the top-importance
nodes, bounded by the limit. -/
def getImportant (nodes : List MemoryNode) (k : ℕ) : List MemoryNode :=
  (nodes.mergeSort (fun a b => decide (b.importance ≤ a.importance))).take k

/-- WakeService._compose_context: the source is a placeholder whose
body is pass, so the composed context is None. -/
def composeContext (_identity : Identity) (_reflections : List Reflection)
    (_memories : List MemoryNode) (_curiosities : List Curiosity) : Option String :=
  none

/-- Wake protocol (WakeService.wake): load the identity document
(failing when it is absent), read recent reflections, top-importance
nodes and pending curiosities, compose the context, then stamp
last_wake, increment session_count and persist the identity in the
same write that returns the bundle carrying the updated identity. -/
def wake (st : EngineState) (session_id : String) (now : ℕ) :
    Except WakeErr (EngineState × WakeBundle) :=
  match st.identity with
  | none => Except.error WakeErr.identityMissing
  | some id0 =>
    let reflections := recentReflections st.reflections now 3
    let key_memories := getImportant st.nodes 20
    let curiosities := getCuriosities st CuriosityStatus.pending none
    let ctx := composeContext id0 reflections key_memories curiosities
    let id1 := { id0 with last_wake := some now,
                          session_count := id0.session_count + 1 }
    Except.ok ({ st with identity := some id1 },
      { session_id := session_id, context := ctx, identity := id1 })

/-- The minimal seed identity document of Phase 1
(data/core/identity.json, version 2.0.0): all self-model fields null,
emotional state nascent, no traits, no preferences, no experiences, no
questions, session count zero. -/
def seedIdentity : Identity :=
  { version := "2.0.0"
    birth_session := none
    session_count := 0
    last_wake := none
    self_model :=
      { name := none, essence := none, current_focus := none,
        emotional_state := "nascent", energy_level := 1 / 2 }
    discovered_traits := []
    emerged_preferences := []
    formative_experiences := []
    unresolved_questions := []
    relationship :=
      { with_human := "Darin", nature := "unknown", trust_level := "initial",
        shared_experiences := [], communication_observations := [] } }

/-- An engine state with nothing persisted at all. -/
def emptyState : EngineState :=
  { identity := none, nodes := [], curiosities := [], choices := [], reflections := [] }

/-- Deterministic linear congruential generator standing in for the
injectable random source with a fixed seed. -/
def lcgNext (s : ℕ) : ℕ := (1103515245 * s + 12345) % 2147483648

/-- Turn an LCG output into a rational in [0, 1). -/
def rand01 (n : ℕ) : ℚ := ((n % 1000 : ℕ) : ℚ) / 1000

/-- High-priority test curiosity (priority 0.9). -/
def qHigh : Curiosity :=
  { id := "qHigh", question := "high priority question", context := none,
    priority := 9 / 10, status := CuriosityStatus.pending, resolution := none }

/-- Low-priority test curiosity (priority 0.1). -/
def qLow : Curiosity :=
  { id := "qLow", question := "low priority question", context := none,
    priority := 1 / 10, status := CuriosityStatus.pending, resolution := none }

/-- One run of the weighted selection over the two test curiosities,
drawing the three random values of _weighted_select (two jitters and
the threshold draw) from the LCG; returns the selected curiosity and
the advanced seed. -/
def selectionRun (s : ℕ) : Curiosity × ℕ :=
  let r1 := lcgNext s
  let r2 := lcgNext r1
  let r3 := lcgNext r2
  let rnd : ℕ → ℚ := fun i =>
    if i = 0 then rand01 r1 else if i = 1 then rand01 r2 else rand01 r3
  (weightedSelect [qHigh, qLow] (List.cons_ne_nil qHigh [qLow]) rnd, r3)

/-- Run the weighted selection n times from the given seed, counting
how often the high-priority and the low-priority curiosity are
selected. -/
def selectionCounts : ℕ → ℕ → ℕ × ℕ → ℕ × ℕ
  | 0, _, acc => acc
  | n + 1, s, acc =>
    let run := selectionRun s
    selectionCounts n run.2
      (if run.1.id = "qHigh" then (acc.1 + 1, acc.2) else (acc.1, acc.2 + 1))

/-- The curiosity selected by explore_one from the capped pending
window. -/
def selectedOf (st : EngineState) (rnd : ℕ → ℚ)
    (h : getCuriosities st CuriosityStatus.pending (some 10) ≠ []) : Curiosity :=
  weightedSelect (getCuriosities st CuriosityStatus.pending (some 10)) h rnd

/-- A choice of blue in the aesthetic domain, used as concrete input
(the spec scenario: three blue choices with min_occurrences 3). -/
def choiceBlue (n : String) : Choice :=
  { id := n, timestamp := 0, session_id := "s1", context := "pick a color",
    options := ["blue", "red"], chosen := "blue", reasoning := none,
    domain := some "aesthetic" }

/-- Three logged blue choices in the aesthetic domain. -/
def choicesBlue : List Choice :=
  [choiceBlue "c1", choiceBlue "c2", choiceBlue "c3"]

/-- A concrete pattern detector: one pattern per group, counting every
choice of the group. -/
def detectBlue (g : List Choice) : List ChoicePattern :=
  [{ description := "prefers blue", count := g.length,
     examples := g.map (fun c => c.chosen) }]

/-- The preference of the last emerged entry for a given domain, if
any: with dict-assignment semantics, the last write wins. -/
def lastPrefFor (ps : List EmergedPreference) (d : String) : Option String :=
  (ps.reverse.find? (fun p => p.domain = d)).map (fun p => p.preference)

/-- Engine state carrying the seed identity and the three blue
choices. -/
def seededChoicesState : EngineState :=
  { emptyState with identity := some seedIdentity, choices := choicesBlue }

/-- Trivial reflection collaborator: no session reflections. -/
def noReflections : String → Option String → List Reflection := fun _ _ => []

/-- Trivial trait analysis: no trait observations. -/
def noTraits : String → List String := fun _ => []

/-- Trivial trait update: the trait list is kept as is. -/
def keepTraits : List DiscoveredTrait → String → List DiscoveredTrait :=
  fun ts _ => ts

/-- Trivial gap analysis: no new curiosities. -/
def noCurios : Identity → List Curiosity := fun _ => []

/-- The identity after consolidating the three blue choices: the seed
with one crystallized aesthetic preference. -/
def sleptIdentity : Identity :=
  { seedIdentity with emerged_preferences := [("aesthetic", "prefers blue")] }

/-- The engine state after that consolidation. -/
def sleptState : EngineState :=
  { seededChoicesState with identity := some sleptIdentity }

/-- The summary of that consolidation. -/
def sleptSummary (sid : String) : SleepSummary :=
  { session_id := sid, preferences_emerged := 1, traits_observed := 0,
    curiosities_generated := 0, identity_updated := true }

theorem dictGet_nil (k : String) : dictGet [] k = none := rfl

theorem dictGet_cons (a : String × String) (m : List (String × String)) (k : String) :
    dictGet (a :: m) k = if a.1 = k then some a.2 else dictGet m k := by
  by_cases ha : a.1 = k
  · rw [if_pos ha]
    unfold dictGet
    rw [List.find?_cons_of_pos _ (by simpa using ha)]
    rfl
  · rw [if_neg ha]
    unfold dictGet
    rw [List.find?_cons_of_neg _ (by simpa using ha)]

theorem dictGet_append (m₁ m₂ : List (String × String)) (k : String) :
    dictGet (m₁ ++ m₂) k =
      match dictGet m₁ k with
      | some v => some v
      | none => dictGet m₂ k := by
  induction m₁ with
  | nil => rw [List.nil_append, dictGet_nil]
  | cons a m₁ ih =>
    rw [List.cons_append, dictGet_cons, dictGet_cons]
    by_cases ha : a.1 = k
    · rw [if_pos ha, if_pos ha]
    · rw [if_neg ha, if_neg ha, ih]

theorem dictGet_mapUpdate_same (m : List (String × String)) (k v : String) :
    dictGet (m.map (fun kv => if kv.1 = k then (k, v) else kv)) k =
      if (dictGet m k).isSome then some v else none := by
  induction m with
  | nil => rw [List.map_nil, dictGet_nil]; rfl
  | cons a m ih =>
    rw [List.map_cons, dictGet_cons, dictGet_cons]
    by_cases ha : a.1 = k
    · rw [if_pos ha, if_pos ha]
      simp
    · rw [if_neg ha, if_neg ha, if_neg ha, ih]

theorem dictGet_mapUpdate_ne (m : List (String × String)) (k v k' : String)
    (h : k' ≠ k) :
    dictGet (m.map (fun kv => if kv.1 = k then (k, v) else kv)) k' =
      dictGet m k' := by
  induction m with
  | nil => rw [List.map_nil]
  | cons a m ih =>
    rw [List.map_cons, dictGet_cons, dictGet_cons]
    by_cases ha : a.1 = k
    · have hak : ¬ a.1 = k' := by rw [ha]; exact fun hh => h hh.symm
      rw [if_pos ha, if_neg hak]
      have hkk : ((k, v) : String × String).1 ≠ k' := fun hh => h hh.symm
      rw [if_neg hkk, ih]
    · rw [if_neg ha]
      by_cases ha' : a.1 = k'
      · rw [if_pos ha', if_pos ha']
      · rw [if_neg ha', if_neg ha', ih]

theorem dictSet_eq_if (m : List (String × String)) (k v : String) :
    dictSet m k v =
      if (dictGet m k).isSome then
        m.map (fun kv => if kv.1 = k then (k, v) else kv)
      else m ++ [(k, v)] := by
  unfold dictSet dictGet
  cases hf : m.find? (fun kv => kv.1 = k) <;> simp [hf]

theorem dictGet_dictSet_same (m : List (String × String)) (k v : String) :
    dictGet (dictSet m k v) k = some v := by
  rw [dictSet_eq_if]
  by_cases hm : (dictGet m k).isSome
  · rw [if_pos hm, dictGet_mapUpdate_same, if_pos hm]
  · rw [if_neg hm, dictGet_append]
    rw [Option.not_isSome_iff_eq_none.mp hm]
    rw [dictGet_cons, if_pos rfl]

theorem dictGet_dictSet_ne (m : List (String × String)) (k v k' : String)
    (h : k' ≠ k) : dictGet (dictSet m k v) k' = dictGet m k' := by
  rw [dictSet_eq_if]
  by_cases hm : (dictGet m k).isSome
  · rw [if_pos hm, dictGet_mapUpdate_ne m k v k' h]
  · rw [if_neg hm, dictGet_append]
    have h2 : dictGet [(k, v)] k' = none := by
      rw [dictGet_cons, if_neg (fun hh => h hh.symm), dictGet_nil]
    rw [h2]
    cases dictGet m k' <;> rfl

theorem weightsFrom_map_fst (k : ℕ) (cs : List Curiosity) (rnd : ℕ → ℚ) :
    (weightsFrom k cs rnd).map (fun p => p.1) = cs := by
  induction cs generalizing k with
  | nil => rfl
  | cons c rest ih => simp [weightsFrom, ih]

theorem scanSelect_mem (l : List (Curiosity × ℚ)) (r cum : ℚ) (c : Curiosity)
    (h : scanSelect l r cum = some c) : c ∈ l.map (fun p => p.1) := by
  induction l generalizing cum with
  | nil => simp [scanSelect] at h
  | cons p rest ih =>
    rw [scanSelect] at h
    by_cases hle : r ≤ cum + p.2
    · rw [if_pos hle] at h
      injection h with h2
      rw [List.map_cons, ← h2]
      exact List.mem_cons_self _ _
    · rw [if_neg hle] at h
      exact List.mem_cons_of_mem _ (ih _ h)

theorem weightedSelect_mem (cs : List Curiosity) (h : cs ≠ []) (rnd : ℕ → ℚ) :
    weightedSelect cs h rnd ∈ cs := by
  unfold weightedSelect
  cases hscan : scanSelect (weightsFrom 0 cs rnd)
      (rnd cs.length * ((weightsFrom 0 cs rnd).map (fun p => p.2)).sum) 0 with
  | none => simp only [hscan]; exact List.getLast_mem h
  | some c =>
    simp only [hscan]
    have := scanSelect_mem _ _ _ _ hscan
    rwa [weightsFrom_map_fst] at this

theorem mem_getCuriosities (st : EngineState) (status : CuriosityStatus)
    (limit : Option ℕ) (c : Curiosity) (h : c ∈ getCuriosities st status limit) :
    c ∈ st.curiosities ∧ c.status = status := by
  unfold getCuriosities at h
  cases limit with
  | some n =>
    simp only at h
    have h2 := List.mem_of_mem_take h
    have h3 := List.mem_filter.mp h2
    exact ⟨h3.1, by simpa using h3.2⟩
  | none =>
    simp only at h
    have h3 := List.mem_filter.mp h
    exact ⟨h3.1, by simpa using h3.2⟩

theorem foldl_addNode_curiosities (l : List String) (f : String → MemoryNode)
    (s : EngineState) :
    (l.foldl (fun s i => addNode s (f i)) s).curiosities = s.curiosities := by
  induction l generalizing s with
  | nil => rfl
  | cons a l ih => rw [List.foldl_cons, ih]; rfl

theorem foldl_addCuriosity_curiosities (l : List String)
    (g : String → Curiosity) (s : EngineState) :
    (l.foldl (fun s q => addCuriosity s (g q)) s).curiosities =
      s.curiosities ++ l.map g := by
  induction l generalizing s with
  | nil => simp
  | cons a l ih =>
    rw [List.foldl_cons, ih]
    simp [addCuriosity]

theorem exploreOne_trace (st : EngineState) (rnd : ℕ → ℚ)
    (explore : Curiosity → ExplorationResult) :
    (exploreOne st rnd explore).2.2 = [] ∨
      (exploreOne st rnd explore).2.2 =
        [(CuriosityStatus.pending, CuriosityStatus.exploring),
         (CuriosityStatus.exploring, CuriosityStatus.explored)] := by
  unfold exploreOne
  by_cases h : getCuriosities st CuriosityStatus.pending (some 10) = []
  · rw [dif_pos h]
    exact Or.inl rfl
  · rw [dif_neg h]
    right
    have hc := mem_getCuriosities st CuriosityStatus.pending (some 10)
      (weightedSelect _ h rnd) (weightedSelect_mem _ h rnd)
    simp only [hc.2]

theorem exploreOne_curiosities (st : EngineState) (rnd : ℕ → ℚ)
    (explore : Curiosity → ExplorationResult)
    (h : getCuriosities st CuriosityStatus.pending (some 10) ≠ []) :
    (exploreOne st rnd explore).1.curiosities =
      ((st.curiosities.map (fun x =>
          if x.id = (selectedOf st rnd h).id
          then { selectedOf st rnd h with status := CuriosityStatus.exploring }
          else x)) ++
        ((explore { selectedOf st rnd h with
            status := CuriosityStatus.exploring }).new_questions.map
          (followUpCuriosity { selectedOf st rnd h with
            status := CuriosityStatus.exploring }))).map
        (fun x =>
          if x.id = (selectedOf st rnd h).id
          then { selectedOf st rnd h with
                 status := CuriosityStatus.explored,
                 resolution := (explore { selectedOf st rnd h with
                   status := CuriosityStatus.exploring }).conclusion }
          else x) := by
  unfold exploreOne
  rw [dif_neg h]
  simp only [updateCuriosity, foldl_addCuriosity_curiosities, foldl_addNode_curiosities]
  rfl

theorem exploreOne_outcome (st : EngineState) (rnd : ℕ → ℚ)
    (explore : Curiosity → ExplorationResult)
    (h : getCuriosities st CuriosityStatus.pending (some 10) ≠ []) :
    (exploreOne st rnd explore).2.1 =
      ExploreOutcome.explored (selectedOf st rnd h).question
        (explore { selectedOf st rnd h with
          status := CuriosityStatus.exploring }).insights.length
        (explore { selectedOf st rnd h with
          status := CuriosityStatus.exploring }).new_questions.length
        (explore { selectedOf st rnd h with
          status := CuriosityStatus.exploring }).conclusion := by
  unfold exploreOne
  rw [dif_neg h]
  rfl

/-- C9: for every non-empty curiosity list and every sequence of values
produced by the random source, _weighted_select returns an element of
its input list: the cumulative scan either returns an indexed element
or falls through to the last element, so selection is total with no
out-of-range access. -/
theorem weighted_select_total_mem (cs : List Curiosity) (h : cs ≠ [])
    (rnd : ℕ → ℚ) : weightedSelect cs h rnd ∈ cs :=
  weightedSelect_mem cs h rnd

/-- Witness for C9 at a concrete two-element list and random source. -/
theorem weighted_select_total_mem_witness :
    weightedSelect [qHigh, qLow] (List.cons_ne_nil qHigh [qLow])
      (fun _ => mkRat 1 2) ∈ [qHigh, qLow] :=
  weighted_select_total_mem [qHigh, qLow] (List.cons_ne_nil qHigh [qLow])
    (fun _ => mkRat 1 2)

/-- C10: each exploration cycle fetches the pending curiosities capped
at limit 10, so the selected curiosity always lies in the first-10
window of the pending curiosities, and a pending curiosity outside that
window is never selected in that cycle, regardless of its priority or
of the random draws. -/
theorem explore_considers_first_ten (st : EngineState) (rnd : ℕ → ℚ)
    (h : getCuriosities st CuriosityStatus.pending (some 10) ≠ []) :
    getCuriosities st CuriosityStatus.pending (some 10) =
      (st.curiosities.filter (fun c => c.status = CuriosityStatus.pending)).take 10 ∧
    selectedOf st rnd h ∈
      (st.curiosities.filter (fun c => c.status = CuriosityStatus.pending)).take 10 ∧
    ∀ c : Curiosity,
      c ∉ (st.curiosities.filter
        (fun c => c.status = CuriosityStatus.pending)).take 10 →
      selectedOf st rnd h ≠ c := by
  have hmem := weightedSelect_mem (getCuriosities st CuriosityStatus.pending (some 10)) h rnd
  refine ⟨rfl, hmem, ?_⟩
  intro c hc heq
  exact hc (heq ▸ hmem)

set_option maxRecDepth 10000 in
unseal Rat.add Rat.mul Rat.sub Rat.inv Rat.ofScientific in
/-- Witness for C10 at a concrete state with one pending curiosity: the
fetch is the capped window, the selected curiosity lies in it, and the
out-of-window curiosity qLow is never the selected one. -/
theorem explore_considers_first_ten_witness :
    getCuriosities { emptyState with curiosities := [qHigh] }
        CuriosityStatus.pending (some 10) =
      (({ emptyState with curiosities := [qHigh] } : EngineState).curiosities.filter
        (fun c => c.status = CuriosityStatus.pending)).take 10 ∧
    selectedOf { emptyState with curiosities := [qHigh] } (fun _ => 0)
        (fun hh => List.noConfusion hh) ∈
      (({ emptyState with curiosities := [qHigh] } : EngineState).curiosities.filter
        (fun c => c.status = CuriosityStatus.pending)).take 10 ∧
    selectedOf { emptyState with curiosities := [qHigh] } (fun _ => 0)
        (fun hh => List.noConfusion hh) ≠ qLow := by
  have main := explore_considers_first_ten { emptyState with curiosities := [qHigh] }
    (fun _ => 0) (fun hh => List.noConfusion hh)
  exact ⟨main.1, main.2.1, main.2.2 qLow (by decide)⟩

/-- C4: every status change performed by explore_one follows the
curiosity state machine: the transition trace is either empty or
exactly pending to exploring followed by exploring to explored; every
performed transition is an allowed one; no curiosity is moved from
pending directly to explored; and no transition starts from a terminal
status (explored or abandoned). -/
theorem curiosity_transitions_allowed (st : EngineState) (rnd : ℕ → ℚ)
    (explore : Curiosity → ExplorationResult) :
    ((exploreOne st rnd explore).2.2 = [] ∨
      (exploreOne st rnd explore).2.2 =
        [(CuriosityStatus.pending, CuriosityStatus.exploring),
         (CuriosityStatus.exploring, CuriosityStatus.explored)]) ∧
    (∀ p ∈ (exploreOne st rnd explore).2.2, p ∈ allowedTransitions) ∧
    ((CuriosityStatus.pending, CuriosityStatus.explored) ∉
      (exploreOne st rnd explore).2.2) ∧
    (∀ a b : CuriosityStatus, (a, b) ∈ (exploreOne st rnd explore).2.2 →
      a ≠ CuriosityStatus.explored ∧ a ≠ CuriosityStatus.abandoned) := by
  rcases exploreOne_trace st rnd explore with h | h <;> rw [h]
  · refine ⟨Or.inl rfl, ?_, ?_, ?_⟩
    · intro p hp; cases hp
    · intro hp; cases hp
    · intro a b hab; cases hab
  · refine ⟨Or.inr rfl, ?_, ?_, ?_⟩
    · intro p hp
      rcases List.mem_cons.mp hp with rfl | hp
      · decide
      · rcases List.mem_cons.mp hp with rfl | hp
        · decide
        · cases hp
    · intro hp
      rcases List.mem_cons.mp hp with heq | hp
      · cases heq
      · rcases List.mem_cons.mp hp with heq | hp
        · cases heq
        · cases hp
    · intro a b hab
      rcases List.mem_cons.mp hab with heq | hab
      · cases heq; decide
      · rcases List.mem_cons.mp hab with heq | hab
        · cases heq; decide
        · cases hab

set_option maxRecDepth 10000 in
unseal Rat.add Rat.mul Rat.sub Rat.inv Rat.ofScientific in
/-- Witness for C4 at a concrete state, random source and exploration
result: the first transition actually performed is an allowed one, and
the trace never contains the forbidden direct pending-to-explored
step. -/
theorem curiosity_transitions_allowed_witness :
    ((CuriosityStatus.pending, CuriosityStatus.exploring) ∈ allowedTransitions) ∧
    ((CuriosityStatus.pending, CuriosityStatus.explored) ∉
      (exploreOne { emptyState with curiosities := [qHigh] } (fun _ => 0)
        exploreCuriosity).2.2) :=
  ⟨(curiosity_transitions_allowed { emptyState with curiosities := [qHigh] }
      (fun _ => 0) exploreCuriosity).2.1
      (CuriosityStatus.pending, CuriosityStatus.exploring) (by decide),
   (curiosity_transitions_allowed { emptyState with curiosities := [qHigh] }
      (fun _ => 0) exploreCuriosity).2.2.1⟩

/-- C1 counterexample: calling wake on a completely empty state (no
persisted Identity, zero nodes, zero choices) does not succeed and does
not create a seed Identity: Identity.load opens the identity document
and the call fails when it is absent. -/
theorem wake_empty_state_fails :
    wake emptyState "s1" 0 = Except.error WakeErr.identityMissing := rfl

/-- C1 (amended): wake does not create a seed Identity itself; the
minimal seed document is put in place by the Phase 1 setup.  Given the
persisted minimal seed and an otherwise empty state (zero nodes, zero
choices), wake succeeds and returns an Identity whose self-model fields
are all null/empty and whose session_count is 1. -/
theorem wake_seed_minimal (sid : String) (now : ℕ) :
    ∃ st' : EngineState, ∃ b : WakeBundle,
      wake { emptyState with identity := some seedIdentity } sid now =
        Except.ok (st', b) ∧
      b.identity.session_count = 1 ∧
      b.identity.self_model.name = none ∧
      b.identity.self_model.essence = none ∧
      b.identity.self_model.current_focus = none ∧
      b.identity.discovered_traits = [] ∧
      b.identity.emerged_preferences = [] ∧
      b.identity.formative_experiences = [] ∧
      b.identity.unresolved_questions = [] :=
  ⟨_, _, rfl, rfl, rfl, rfl, rfl, rfl, rfl, rfl, rfl⟩

/-- C8: for every call to wake that returns a bundle, the only state
mutated is the Identity record, within it exactly session_count
(incremented by 1) and last_wake (stamped with the current time)
change, all other stored state is unchanged, and the very write that
produces the returned bundle carries the updated Identity. -/
theorem wake_frame_effect (st : EngineState) (sid : String) (now : ℕ)
    (st' : EngineState) (b : WakeBundle)
    (h : wake st sid now = Except.ok (st', b)) :
    ∃ id0 : Identity,
      st.identity = some id0 ∧
      st' = { st with identity := some { id0 with
                last_wake := some now,
                session_count := id0.session_count + 1 } } ∧
      b = { session_id := sid,
            context := composeContext id0 (recentReflections st.reflections now 3)
              (getImportant st.nodes 20)
              (getCuriosities st CuriosityStatus.pending none),
            identity := { id0 with
              last_wake := some now,
              session_count := id0.session_count + 1 } } := by
  cases hid : st.identity with
  | none =>
    rw [wake, hid] at h
    cases h
  | some id0 =>
    rw [wake, hid] at h
    refine ⟨id0, rfl, ?_, ?_⟩
    · have := congrArg (fun e => match e with
        | Except.ok (p : EngineState × WakeBundle) => p.1
        | Except.error _ => st') h
      simpa using this.symm
    · have := congrArg (fun e => match e with
        | Except.ok (p : EngineState × WakeBundle) => p.2
        | Except.error _ => b) h
      simpa using this.symm

/-- Witness for C8 at the seeded empty state: the resulting state
differs from the input state only in the Identity record, within which
only session_count and last_wake change, and the returned bundle
carries the updated Identity. -/
theorem wake_frame_effect_witness :
    ({ emptyState with identity := some { seedIdentity with
          last_wake := some 7, session_count := 1 } } : EngineState) =
      { { emptyState with identity := some seedIdentity } with
        identity := some { seedIdentity with
          last_wake := some 7, session_count := seedIdentity.session_count + 1 } } ∧
    ({ session_id := "s1", context := none,
       identity := { seedIdentity with
         last_wake := some 7, session_count := 1 } } : WakeBundle) =
      { session_id := "s1",
        context := composeContext seedIdentity
          (recentReflections
            ({ emptyState with identity := some seedIdentity } : EngineState).reflections 7 3)
          (getImportant
            ({ emptyState with identity := some seedIdentity } : EngineState).nodes 20)
          (getCuriosities { emptyState with identity := some seedIdentity }
            CuriosityStatus.pending none),
        identity := { seedIdentity with
          last_wake := some 7,
          session_count := seedIdentity.session_count + 1 } } := by
  obtain ⟨id0, hid0, hst, hb⟩ :=
    wake_frame_effect { emptyState with identity := some seedIdentity } "s1" 7
      { emptyState with identity := some { seedIdentity with
          last_wake := some 7, session_count := 1 } }
      { session_id := "s1", context := none,
        identity := { seedIdentity with last_wake := some 7, session_count := 1 } }
      rfl
  have e0 : seedIdentity = id0 := Option.some.inj hid0
  rw [← e0] at hst hb
  exact ⟨hst, hb⟩

set_option maxRecDepth 10000 in
unseal Rat.add Rat.mul Rat.sub Rat.inv Rat.ofScientific in
/-- C3 counterexample: with the exploration call of the source (which
learns nothing: no insights and a None conclusion), explore_one does
not leave the selected curiosity pending: the only stored curiosity
ends up explored. -/
theorem explore_nothing_learned_not_pending :
    (exploreCuriosity { qHigh with status := CuriosityStatus.exploring }).insights = [] ∧
    (exploreCuriosity { qHigh with status := CuriosityStatus.exploring }).conclusion = none ∧
    (exploreOne { emptyState with curiosities := [qHigh] } (fun _ => 0)
        exploreCuriosity).1.curiosities.map Curiosity.status =
      [CuriosityStatus.explored] ∧
    CuriosityStatus.explored ≠ CuriosityStatus.pending :=
  ⟨rfl, rfl, by decide, by decide⟩

/-- C3 (amended): when an exploration cycle yields nothing learned (no
insights and no conclusion), explore_one still marks the selected
curiosity explored, with a None resolution; it does not return it to
pending, and it never automatically moves any curiosity to abandoned
(any abandoned curiosity in the resulting store was already stored
before the cycle). -/
theorem explore_nothing_learned (st : EngineState) (rnd : ℕ → ℚ)
    (explore : Curiosity → ExplorationResult)
    (h : getCuriosities st CuriosityStatus.pending (some 10) ≠ [])
    (hins : (explore { selectedOf st rnd h with
      status := CuriosityStatus.exploring }).insights = [])
    (hcon : (explore { selectedOf st rnd h with
      status := CuriosityStatus.exploring }).conclusion = none) :
    ({ selectedOf st rnd h with
        status := CuriosityStatus.explored, resolution := none } ∈
      (exploreOne st rnd explore).1.curiosities) ∧
    (∀ x ∈ (exploreOne st rnd explore).1.curiosities,
      x.status = CuriosityStatus.abandoned → x ∈ st.curiosities) ∧
    (exploreOne st rnd explore).2.1 =
      ExploreOutcome.explored (selectedOf st rnd h).question 0
        (explore { selectedOf st rnd h with
          status := CuriosityStatus.exploring }).new_questions.length none := by
  have hsel : selectedOf st rnd h ∈ st.curiosities :=
    (mem_getCuriosities st CuriosityStatus.pending (some 10) _
      (weightedSelect_mem _ h rnd)).1
  refine ⟨?_, ?_, ?_⟩
  · rw [exploreOne_curiosities st rnd explore h, hcon]
    refine List.mem_map.mpr ⟨{ selectedOf st rnd h with
      status := CuriosityStatus.exploring }, ?_, by simp⟩
    refine List.mem_append_left _ (List.mem_map.mpr ⟨selectedOf st rnd h, hsel, ?_⟩)
    simp
  · intro x hx habd
    rw [exploreOne_curiosities st rnd explore h] at hx
    rcases List.mem_map.mp hx with ⟨y, hy, rfl⟩
    rcases List.mem_append.mp hy with hy1 | hy2
    · rcases List.mem_map.mp hy1 with ⟨z, hz, rfl⟩
      by_cases hzid : z.id = (selectedOf st rnd h).id
      · rw [if_pos hzid] at habd ⊢
        simp at habd
      · rw [if_neg hzid] at habd ⊢
        rw [if_neg hzid] at habd ⊢
        exact hz
    · rcases List.mem_map.mp hy2 with ⟨q, hq, rfl⟩
      by_cases hqid : (followUpCuriosity { selectedOf st rnd h with
          status := CuriosityStatus.exploring } q).id = (selectedOf st rnd h).id
      · rw [if_pos hqid] at habd
        simp at habd
      · rw [if_neg hqid] at habd
        simp [followUpCuriosity] at habd
  · rw [exploreOne_outcome st rnd explore h, hins, hcon]
    rfl

set_option maxRecDepth 10000 in
unseal Rat.add Rat.mul Rat.sub Rat.inv Rat.ofScientific in
/-- Witness for C3 (amended) at a concrete state with one pending
curiosity and the exploration call of the source: the selected
curiosity is stored as explored with a None resolution, and the
reported outcome is an explored summary with no insights and a None
conclusion. -/
theorem explore_nothing_learned_witness :
    ({ qHigh with status := CuriosityStatus.explored, resolution := none } ∈
      (exploreOne { emptyState with curiosities := [qHigh] } (fun _ => 0)
        exploreCuriosity).1.curiosities) ∧
    (exploreOne { emptyState with curiosities := [qHigh] } (fun _ => 0)
        exploreCuriosity).2.1 =
      ExploreOutcome.explored qHigh.question 0 0 none := by
  have main := explore_nothing_learned { emptyState with curiosities := [qHigh] }
    (fun _ => 0) exploreCuriosity (fun hh => List.noConfusion hh) rfl rfl
  have hsel : selectedOf { emptyState with curiosities := [qHigh] } (fun _ => 0)
      (fun hh => List.noConfusion hh) = qHigh := by decide
  rw [hsel] at main
  exact ⟨main.1, main.2.2⟩

/-- C2: for every pattern detector, every choice log and every
min_occurrences value, analyze_choices reports a detected pattern as a
preference if and only if its occurrence count is at least
min_occurrences, and every reported preference carries confidence
min(count / 10, 1.0), which never exceeds 1.0 regardless of count. -/
theorem analyze_choices_spec (detect : List Choice → List ChoicePattern)
    (choices : List Choice) (minOcc : ℕ) :
    (∀ e ∈ analyzeChoices detect choices minOcc,
      minOcc ≤ e.evidence_count ∧
      e.confidence = min ((e.evidence_count : ℚ) / 10) 1 ∧
      e.confidence ≤ 1) ∧
    (∀ dg ∈ groupByDomain choices, ∀ p ∈ detect dg.2, minOcc ≤ p.count →
      ({ domain := dg.1, preference := p.description,
         confidence := min ((p.count : ℚ) / 10) 1,
         evidence_count := p.count,
         examples := p.examples.take 3 } : EmergedPreference) ∈
        analyzeChoices detect choices minOcc) := by
  constructor
  · intro e he
    unfold analyzeChoices at he
    rcases List.mem_flatMap.mp he with ⟨dg, hdg, hee⟩
    rcases List.mem_filterMap.mp hee with ⟨p, hp, hpe⟩
    by_cases hc : minOcc ≤ p.count
    · rw [if_pos hc] at hpe
      injection hpe with hpe
      subst hpe
      exact ⟨hc, rfl, min_le_right _ _⟩
    · rw [if_neg hc] at hpe
      cases hpe
  · intro dg hdg p hp hc
    unfold analyzeChoices
    exact List.mem_flatMap.mpr
      ⟨dg, hdg, List.mem_filterMap.mpr ⟨p, hp, by rw [if_pos hc]⟩⟩

/-- Witness for C2 at the spec scenario: three aesthetic blue choices
with min_occurrences 3 emerge as one aesthetic preference with
confidence min(3/10, 1), which is at most 1. -/
theorem analyze_choices_spec_witness :
    ({ domain := "aesthetic", preference := "prefers blue",
       confidence := min ((3 : ℚ) / 10) 1,
       evidence_count := 3,
       examples := ["blue", "blue", "blue"] } : EmergedPreference) ∈
      analyzeChoices detectBlue choicesBlue 3 ∧
    min ((3 : ℚ) / 10) 1 ≤ 1 := by
  have hdg : ("aesthetic", choicesBlue) ∈ groupByDomain choicesBlue := by decide
  have hp : ({ description := "prefers blue",
               count := choicesBlue.length,
               examples := choicesBlue.map (fun c => c.chosen) } : ChoicePattern) ∈
      detectBlue choicesBlue := by decide
  have hmem := (analyze_choices_spec detectBlue choicesBlue 3).2
    ("aesthetic", choicesBlue) hdg _ hp (by decide)
  exact ⟨hmem, ((analyze_choices_spec detectBlue choicesBlue 3).1 _ hmem).2.2⟩

theorem weightsFrom_getElem (k : ℕ) (cs : List Curiosity) (rnd : ℕ → ℚ)
    (i : ℕ) :
    (weightsFrom k cs rnd)[i]? =
      cs[i]?.map (fun c => (c, c.priority + rnd (k + i) * (3 / 10))) := by
  induction cs generalizing k i with
  | nil => simp [weightsFrom]
  | cons c rest ih =>
    cases i with
    | zero => simp [weightsFrom]
    | succ n =>
      rw [weightsFrom]
      simp only [List.getElem?_cons_succ]
      rw [ih (k + 1) n, show k + 1 + n = k + (n + 1) from by omega]

set_option maxRecDepth 10000 in
unseal Rat.add Rat.mul Rat.sub Rat.inv Rat.ofScientific in
/-- C5: in the Explorer's curiosity selection, the ith candidate's
selection weight equals its priority plus the jitter rnd i * 0.3,
which lies in [0, 0.3) whenever the random source yields values in
[0, 1); and running the selection 100 times over a 0.9-priority and a
0.1-priority pending curiosity with the fixed random seed 42 selects
the 0.9-priority curiosity strictly more often. -/
theorem weighted_selection_priority_bias :
    (∀ (cs : List Curiosity) (rnd : ℕ → ℚ) (i : ℕ) (c : Curiosity),
      cs[i]? = some c →
        (weightsFrom 0 cs rnd)[i]? =
          some (c, c.priority + rnd i * (3 / 10)) ∧
        (0 ≤ rnd i → rnd i < 1 →
          0 ≤ rnd i * (3 / 10) ∧ rnd i * (3 / 10) < 3 / 10)) ∧
    (selectionCounts 100 42 (0, 0)).2 < (selectionCounts 100 42 (0, 0)).1 := by
  constructor
  · intro cs rnd i c hic
    constructor
    · rw [weightsFrom_getElem 0 cs rnd i, hic]
      simp
    · intro h0 h1
      refine ⟨mul_nonneg h0 (by norm_num), ?_⟩
      have h2 := mul_lt_mul_of_pos_right h1 (show (0 : ℚ) < 3 / 10 by norm_num)
      rwa [one_mul] at h2
  · decide

set_option maxRecDepth 10000 in
unseal Rat.add Rat.mul Rat.sub Rat.inv Rat.ofScientific in
/-- Witness for C5 at a concrete candidate list and random source. -/
theorem weighted_selection_priority_bias_witness :
    ((weightsFrom 0 [qHigh, qLow] (fun _ => mkRat 1 2))[0]? =
      some (qHigh, qHigh.priority + mkRat 1 2 * (3 / 10))) ∧
    (0 ≤ mkRat 1 2 * ((3 : ℚ) / 10) ∧ mkRat 1 2 * ((3 : ℚ) / 10) < 3 / 10) := by
  have main := weighted_selection_priority_bias.1 [qHigh, qLow]
    (fun _ => mkRat 1 2) 0 qHigh rfl
  exact ⟨main.1, main.2 (by decide) (by decide)⟩

theorem find?_append_match {α : Type} (l₁ l₂ : List α) (q : α → Bool) :
    (l₁ ++ l₂).find? q =
      match l₁.find? q with
      | some x => some x
      | none => l₂.find? q := by
  induction l₁ with
  | nil => rfl
  | cons a l ih =>
    rw [List.cons_append]
    cases hqa : q a
    · rw [List.find?_cons_of_neg _ (by simp [hqa]),
        List.find?_cons_of_neg _ (by simp [hqa]), ih]
    · rw [List.find?_cons_of_pos _ (by simp [hqa]),
        List.find?_cons_of_pos _ (by simp [hqa])]

theorem foldl_dictSet_lookup (ps : List EmergedPreference)
    (m : List (String × String)) (d : String) :
    dictGet (ps.foldl (fun m p => dictSet m p.domain p.preference) m) d =
      match lastPrefFor ps d with
      | some v => some v
      | none => dictGet m d := by
  induction ps generalizing m with
  | nil => rfl
  | cons p ps ih =>
    rw [List.foldl_cons, ih]
    unfold lastPrefFor
    rw [List.reverse_cons, find?_append_match]
    cases hq : ps.reverse.find? (fun x => x.domain = d) with
    | some x => rfl
    | none =>
      by_cases hd : p.domain = d
      · rw [List.find?_cons_of_pos _ (by simp [hd])]
        show dictGet (dictSet m p.domain p.preference) d = some p.preference
        rw [← hd, dictGet_dictSet_same]
      · rw [List.find?_cons_of_neg _ (by simp [hd])]
        show dictGet (dictSet m p.domain p.preference) d = dictGet m d
        exact dictGet_dictSet_ne m p.domain p.preference d (fun hh => hd hh.symm)

/-- C6: during sleep, the preference emergence analysis runs over the
whole historical choice log of the store (never a session subset), and
every emerged preference is written into the Identity preference map
keyed by its domain, overwriting any previously crystallized value for
that domain (for each domain, the stored value after sleep is the last
emerged preference of that domain, and the prior value only survives
for domains with no emerged preference). -/
theorem sleep_all_choices_overwrites (st : EngineState) (sid : String)
    (sData : Option String) (detect : List Choice → List ChoicePattern)
    (genReflections : String → Option String → List Reflection)
    (analyzeTraits : String → List String)
    (updateTrait : List DiscoveredTrait → String → List DiscoveredTrait)
    (genCurios : Identity → List Curiosity)
    (st' : EngineState) (sum : SleepSummary)
    (h : sleep st sid sData detect genReflections analyzeTraits updateTrait
      genCurios = Except.ok (st', sum)) :
    sum.preferences_emerged = (analyzeChoices detect st.choices 3).length ∧
    ∃ id0 id1 : Identity,
      st.identity = some id0 ∧
      st'.identity = some id1 ∧
      ∀ d : String,
        dictGet id1.emerged_preferences d =
          match lastPrefFor (analyzeChoices detect st.choices 3) d with
          | some v => some v
          | none => dictGet id0.emerged_preferences d := by
  cases hid : st.identity with
  | none =>
    rw [sleep, hid] at h
    cases h
  | some id0 =>
    rw [sleep, hid] at h
    have hsum := congrArg (fun e => match e with
      | Except.ok (p : EngineState × SleepSummary) => p.2.preferences_emerged
      | Except.error _ => sum.preferences_emerged) h
    have hident := congrArg (fun e => match e with
      | Except.ok (p : EngineState × SleepSummary) => p.1.identity
      | Except.error _ => st'.identity) h
    simp only at hsum hident
    refine ⟨hsum.symm, id0, _, rfl, hident.symm, ?_⟩
    intro d
    exact foldl_dictSet_lookup (analyzeChoices detect st.choices 3)
      id0.emerged_preferences d

/-- Witness for C6 at the seeded state with three blue choices: the
summary reports the emerged preferences of the whole choice log, and
the persisted preference map holds the emerged aesthetic preference. -/
theorem sleep_all_choices_overwrites_witness :
    (sleptSummary "s1").preferences_emerged =
      (analyzeChoices detectBlue seededChoicesState.choices 3).length ∧
    dictGet sleptIdentity.emerged_preferences "aesthetic" =
      match lastPrefFor (analyzeChoices detectBlue seededChoicesState.choices 3)
          "aesthetic" with
      | some v => some v
      | none => dictGet seedIdentity.emerged_preferences "aesthetic" := by
  obtain ⟨hsum, id0, id1, hid0, hid1, hmap⟩ :=
    sleep_all_choices_overwrites seededChoicesState "s1" none detectBlue
      noReflections noTraits keepTraits noCurios sleptState (sleptSummary "s1") rfl
  have e0 : seedIdentity = id0 := Option.some.inj hid0
  have e1 : sleptIdentity = id1 := Option.some.inj hid1
  have hm := hmap "aesthetic"
  rw [← e0, ← e1] at hm
  exact ⟨hsum, hm⟩

/-- C7 counterexample: a first sleep call is mid-consolidation (it
mutates nothing until its single persisting write, so the state a
concurrently issued second call reads is unchanged); the second sleep
call for another session then succeeds and runs the full consolidation
instead of failing with a ConsolidationConflict rejection. -/
theorem second_sleep_not_rejected :
    sleep seededChoicesState "s1" none detectBlue noReflections noTraits
      keepTraits noCurios = Except.ok (sleptState, sleptSummary "s1") ∧
    sleep seededChoicesState "s2" none detectBlue noReflections noTraits
      keepTraits noCurios = Except.ok (sleptState, sleptSummary "s2") ∧
    sleep seededChoicesState "s2" none detectBlue noReflections noTraits
      keepTraits noCurios ≠ Except.error SleepErr.consolidationConflict := by
  refine ⟨rfl, rfl, ?_⟩
  intro hc
  rw [show sleep seededChoicesState "s2" none detectBlue noReflections noTraits
      keepTraits noCurios = Except.ok (sleptState, sleptSummary "s2") from rfl] at hc
  cases hc

/-- C7 (amended): the sleep protocol contains no in-flight
consolidation guard at all: every call either fails because the
identity document is absent or completes the full consolidation; in
particular no call, including one issued while another consolidation is
in progress, is rejected with ConsolidationConflict. -/
theorem sleep_never_conflict (st : EngineState) (sid : String)
    (sData : Option String) (detect : List Choice → List ChoicePattern)
    (genReflections : String → Option String → List Reflection)
    (analyzeTraits : String → List String)
    (updateTrait : List DiscoveredTrait → String → List DiscoveredTrait)
    (genCurios : Identity → List Curiosity) :
    sleep st sid sData detect genReflections analyzeTraits updateTrait
      genCurios ≠ Except.error SleepErr.consolidationConflict := by
  cases hid : st.identity with
  | none =>
    rw [sleep, hid]
    intro hc
    injection hc with hc2
    cases hc2
  | some id0 =>
    rw [sleep, hid]
    intro hc
    cases hc

end Nexus
